import Mathlib

/-!
Verification development for the nemo-screenshot plugin (src/index.js).

The JavaScript module is shallowly embedded: each function of the source is
translated to a Lean definition over explicit inputs for the external world
(driver session state, screenshot/page-source/script outcomes, filesystem
write outcomes, environment variables), and the observable behaviour of a
call (filesystem operations, console output, callback invocations, the
settled state of the returned promise) is returned as data.
-/

namespace Nemo

/-- A JavaScript word character in the sense of the regex class backslash-w
without the unicode flag: ASCII alphanumerics and the underscore. -/
def jsIsWordChar (c : Char) : Bool := c.isAlphanum || c = '_'

/-- A JavaScript whitespace character (the ASCII ones relevant here). -/
def jsIsWhitespace (c : Char) : Bool :=
  c = ' ' || c = '\t' || c = '\n' || c = '\r' || c = '\x0b' || c = '\x0c'

/-- Model of `String.prototype.trim`: strip whitespace from both ends. -/
def jsTrim (s : String) : String :=
  ⟨((s.data.dropWhile jsIsWhitespace).reverse.dropWhile jsIsWhitespace).reverse⟩

/-- Model of `.replace(/\W/g, '_')`: every non-word character becomes `_`. -/
def jsReplaceNonWord (s : String) : String :=
  ⟨s.data.map (fun c => if jsIsWordChar c then c else '_')⟩

/-- Model of `.substring(0, n)`: keep the first `n` characters. -/
def jsSubstringTo (n : Nat) (s : String) : String := ⟨s.data.take n⟩

/-- Truthiness of an optional environment/string value: `undefined`/`null`
and the empty string are falsy, every other string is truthy. -/
def jsTruthyOpt : Option String → Bool
  | none => false
  | some s => !s.isEmpty

/-- JavaScript string coercion of a possibly-undefined value, as it appears
in string concatenation: `undefined` prints as "undefined". -/
def jsStrOfOpt : Option String → String
  | none => "undefined"
  | some s => s

/-- `titleSlug` from src/index.js lines 37-43: falsy titles give the empty
string; otherwise trim, replace every non-word character with an
underscore, and truncate to 251 characters. -/
def titleSlug (title : String) : String :=
  if title.isEmpty then ""
  else jsSubstringTo 251 (jsReplaceNonWord (jsTrim title))

/-- The Jenkins-related environment variables read by
`formatJenkinsImageUrls` (src/index.js lines 67-70); `none` models an unset
variable. -/
structure JenkinsEnv where
  jenkinsUrl : Option String
  buildUrl : Option String
  jobName : Option String
  workspace : Option String
deriving DecidableEq, Repr

/-- The object returned by `formatJenkinsImageUrls` when at least one URL
was built; a `none` field models a property left `undefined`. -/
structure JenkinsUrls where
  imageUrl : Option String
  archivedImageUrl : Option String
deriving DecidableEq, Repr

/-- Model of `String.prototype.substr(start)`: drop the first `start`
characters. -/
def jsSubstrFrom (start : Nat) (s : String) : String := ⟨s.data.drop start⟩

/-- `formatJenkinsImageUrls` from src/index.js lines 66-99.  If `WORKSPACE`
is falsy it logs a diagnostic and returns `null` (modelled as `none`).
Otherwise the image path relative to the workspace is
`screenShotPath.substr(workspace.length)`; with a truthy `JOB_NAME` the
workspace URL is built (note: an unset `JENKINS_URL` is concatenated as the
string "undefined"), and with a truthy `BUILD_URL` the archived URL is
built.  The final truthiness test on the built URLs coincides with
`isSome` because every built URL contains a non-empty literal segment. -/
def formatJenkinsImageUrls (env : JenkinsEnv) (screenShotPath imageName : String) :
    Option JenkinsUrls :=
  if !jsTruthyOpt env.workspace then none
  else
    let workspace := jsStrOfOpt env.workspace
    let relImagePath := jsSubstrFrom workspace.length screenShotPath
    let imageUrl : Option String :=
      if jsTruthyOpt env.jobName then
        some (jsStrOfOpt env.jenkinsUrl ++ "job/" ++ jsStrOfOpt env.jobName ++ "/ws" ++
          relImagePath ++ "/" ++ imageName)
      else none
    let archivedImageUrl : Option String :=
      if jsTruthyOpt env.buildUrl then
        some (jsStrOfOpt env.buildUrl ++ "artifact" ++ relImagePath ++ "/" ++ imageName)
      else none
    if imageUrl.isSome || archivedImageUrl.isSome then
      some { imageUrl := imageUrl, archivedImageUrl := archivedImageUrl }
    else none

/-- A JavaScript `Error` value: only the fields this module touches. -/
structure JsError where
  name : String
  message : String
  stack : String
deriving DecidableEq, Repr

/-- `Error.prototype.toString`: "name: message". -/
def jsErrorToString (e : JsError) : String := e.name ++ ": " ++ e.message

/-- Whether a path is absolute: it begins with a slash. -/
def pathIsAbsolute (s : String) : Bool := s.data.head? = some '/'

/-- Model of `path.resolve(p)` against a current working directory: an
absolute path is kept, a relative one is anchored at the cwd. -/
def pathResolve (cwd p : String) : String :=
  if pathIsAbsolute p then p else cwd ++ "/" ++ p

/-- Model of `path.join(a, b)` for a directory and a file name. -/
def pathJoin (a b : String) : String := a ++ "/" ++ b

/-- Model of `path.dirname`: everything before the last slash. -/
def pathDirname (s : String) : String :=
  ⟨((s.data.reverse.dropWhile (fun c => c ≠ '/')).drop 1).reverse⟩

/-- A filesystem operation issued by a capture: recursive directory
creation, or a file write that succeeded (`ok = true`) or failed. -/
inductive FsOp
  | mkdirp (dir : String)
  | write (filePath : String) (ok : Bool)
deriving DecidableEq, Repr

/-- A console line emitted by the module: `console.log` text or a
`console.error` on an error value. -/
inductive LogEntry
  | log (msg : String)
  | errorLog (e : JsError)
deriving DecidableEq, Repr

/-- The object `snap` fulfills its promise with: the boolean sentinel
`true` in the no-session case, otherwise the image object. -/
structure CaptureResult where
  imageName : String
  imagePath : String
  imageUrl : Option String
  archivedImageUrl : Option String
deriving DecidableEq, Repr

/-- A value a `snap` promise can fulfill with. -/
inductive SnapValue
  | sentinelTrue
  | obj (r : CaptureResult)
deriving DecidableEq, Repr

/-- The settled state of the promise returned by `snap`. -/
inductive SnapOutcome
  | fulfilled (v : SnapValue)
  | rejected (e : JsError)
deriving DecidableEq, Repr

/-- Configuration fixed at setup time, plus the process environment. -/
structure PluginConfig where
  cwd : String
  screenShotPath : String
  env : JenkinsEnv
deriving DecidableEq, Repr

/-- The external driver as `snap` observes it: whether `getSession()` is
truthy, and the settled outcome of `takeScreenshot()`. -/
structure Driver where
  hasSession : Bool
  screenshot : Except JsError String
deriving Repr

/-- The observable behaviour of one `snap` call: the filesystem operations
it issued, the files that exist afterwards (relative to an empty report
directory), and the settled state of the returned promise. -/
structure SnapRun where
  fsOps : List FsOp
  files : List (String × String)
  outcome : SnapOutcome
deriving DecidableEq, Repr

/-- The image object `snap` builds before writing: name and full path,
enriched with Jenkins URLs when `JENKINS_URL` is truthy and the formatter
returns a result (src/index.js lines 163-173). -/
def snapImageObj (cfg : PluginConfig) (imageName imageFullPath : String) : CaptureResult :=
  let base : CaptureResult :=
    { imageName := imageName, imagePath := imageFullPath,
      imageUrl := none, archivedImageUrl := none }
  if jsTruthyOpt cfg.env.jenkinsUrl then
    match formatJenkinsImageUrls cfg.env cfg.screenShotPath imageName with
    | some urls =>
      { base with imageUrl := urls.imageUrl,
                  archivedImageUrl := urls.archivedImageUrl }
    | none => base
  else base

/-- `snap` from src/index.js lines 145-190.  `writeErr` is the outcome the
filesystem gives the `fs.writeFile` callback (`none` = success).  With no
session the promise fulfills with `true` and nothing else happens.
Otherwise a failed screenshot rejects with that error; on success the
image name is `filename + ".png"`, directories are created down to the
image path, Jenkins URLs are attached when `JENKINS_URL` is truthy, and
the write settles the promise: rejection with the write error, or
fulfillment with the image object. -/
def snap (cfg : PluginConfig) (drv : Driver) (writeErr : Option JsError)
    (filename : String) : SnapRun :=
  if !drv.hasSession then
    { fsOps := [], files := [], outcome := .fulfilled .sentinelTrue }
  else
    match drv.screenshot with
    | .error e => { fsOps := [], files := [], outcome := .rejected e }
    | .ok screenImg =>
      let imageName := filename ++ ".png"
      let imageDir := pathResolve cfg.cwd cfg.screenShotPath
      let imageFullPath := pathJoin imageDir imageName
      let imageObj : CaptureResult := snapImageObj cfg imageName imageFullPath
      match writeErr with
      | some e =>
        { fsOps := [.mkdirp (pathDirname imageFullPath), .write imageFullPath false],
          files := [], outcome := .rejected e }
      | none =>
        { fsOps := [.mkdirp (pathDirname imageFullPath), .write imageFullPath true],
          files := [(imageFullPath, screenImg)],
          outcome := .fulfilled (.obj imageObj) }

/-- A JSON string literal as `JSON.stringify` renders it (the names this
module produces contain no characters needing escapes). -/
def jsonStr (s : String) : String := "\"" ++ s ++ "\""

/-- `JSON.stringify` of the image object: properties in insertion order,
properties holding `undefined` omitted. -/
def stringifyImageObject : SnapValue → String
  | .sentinelTrue => "true"
  | .obj r =>
    "\x7b\"imageName\":" ++ jsonStr r.imageName ++
    ",\"imagePath\":" ++ jsonStr r.imagePath ++
    (match r.imageUrl with
     | some u => ",\"imageUrl\":" ++ jsonStr u
     | none => "") ++
    (match r.archivedImageUrl with
     | some u => ",\"archivedImageUrl\":" ++ jsonStr u
     | none => "") ++ "\x7d"

/-- The text `appendImageUrlToStackTrace` (src/index.js lines 45-64)
appends: the URL lines when the image object carries a truthy URL,
otherwise the delimited JSON dump.  (URLs built by this module are
non-empty strings, so `isSome` coincides with truthiness.) -/
def stackTraceOutput (v : SnapValue) : String :=
  match v with
  | .obj r =>
    if r.imageUrl.isSome || r.archivedImageUrl.isSome then
      "\n" ++
      (match r.imageUrl with
       | some u => "nemo-screenshot (workspace): " ++ u ++ "\n"
       | none => "") ++
      (match r.archivedImageUrl with
       | some u => "nemo-screenshot (archived): " ++ u ++ "\n"
       | none => "")
    else "\nnemo-screenshot::" ++ stringifyImageObject v ++ "::nemo-screenshot"
  | .sentinelTrue => "\nnemo-screenshot::" ++ stringifyImageObject v ++ "::nemo-screenshot"

/-- `appendImageUrlToStackTrace` as a pure update of the error argument:
for a falsy `err` (modelled `none`) nothing is mutated; otherwise the
output text is appended to `err.stack`. -/
def appendImageUrlToStackTrace (v : SnapValue) (err : Option JsError) : Option JsError :=
  match err with
  | none => none
  | some e => some { e with stack := e.stack ++ stackTraceOutput v }

/-- The observable behaviour of one `done` call: console output and the
arguments of the completion-callback invocations, in order. -/
structure DoneRun where
  logs : List LogEntry
  callbackCalls : List (Option JsError)
deriving DecidableEq, Repr

/-- `done` from src/index.js lines 313-321: run `snap`; on fulfillment
annotate the caller's error (when truthy) and invoke the callback with it;
on rejection log a diagnostic and invoke the callback with snap's error. -/
def done (cfg : PluginConfig) (drv : Driver) (writeErr : Option JsError)
    (filename : String) (err : Option JsError) : DoneRun :=
  match (snap cfg drv writeErr filename).outcome with
  | .fulfilled v =>
    { logs := [], callbackCalls := [appendImageUrlToStackTrace v err] }
  | .rejected scerror =>
    { logs := [.log ("nemo-screenshot encountered some error. " ++ jsErrorToString scerror)],
      callbackCalls := [some scerror] }

/-- The external driver as `source` observes it: session presence, the
settled outcome of `executeScript(script)` (the DOM-inspection side
channel), and the settled outcome of `getPageSource()`. -/
structure SourceDriver where
  hasSession : Bool
  script : Except JsError String
  pageSource : Except JsError String
deriving Repr

/-- The object `source` fulfills with on the main path. -/
structure SourceResult where
  sourceName : String
  sourcePath : String
deriving DecidableEq, Repr

/-- A value a `source` promise can fulfill with. -/
inductive SourceValue
  | sentinelTrue
  | obj (r : SourceResult)
deriving DecidableEq, Repr

/-- The settled state of the promise returned by `source`. -/
inductive SourceOutcome
  | fulfilled (v : SourceValue)
  | rejected (e : JsError)
deriving DecidableEq, Repr

/-- The observable behaviour of one `source` call. -/
structure SourceRun where
  fsOps : List FsOp
  logs : List LogEntry
  outcome : SourceOutcome
deriving DecidableEq, Repr

/-- `source` from src/index.js lines 202-311.  With no session the promise
fulfills with `true`.  Otherwise the DOM-inspection side channel runs:
`driver.executeScript(script).then(cb)` attaches only a fulfillment
callback, so a script failure is dropped without any console output, while
a successful script writes `filename + ".txt"` (no directory creation) and
a failing write is reported via `console.error`.  Independently, the main
path retrieves the page source: a retrieval failure rejects the promise;
otherwise directories are created and `filename + ".html"` is written,
rejecting with the write error or fulfilling with the source object.
`txtWriteErr` and `htmlWriteErr` are the outcomes the filesystem hands the
two `fs.writeFile` callbacks. -/
def source (cfg : PluginConfig) (drv : SourceDriver)
    (txtWriteErr htmlWriteErr : Option JsError) (filename : String) : SourceRun :=
  if !drv.hasSession then
    { fsOps := [], logs := [], outcome := .fulfilled .sentinelTrue }
  else
    let side : List FsOp × List LogEntry :=
      match drv.script with
      | .error _ => ([], [])
      | .ok _ =>
        let filePath := pathJoin (pathResolve cfg.cwd cfg.screenShotPath) (filename ++ ".txt")
        match txtWriteErr with
        | some e => ([.write filePath false], [.errorLog e])
        | none => ([.write filePath true], [])
    match drv.pageSource with
    | .error e => { fsOps := side.1, logs := side.2, outcome := .rejected e }
    | .ok _ =>
      let sourceName := filename ++ ".html"
      let sourceFullPath := pathJoin (pathResolve cfg.cwd cfg.screenShotPath) sourceName
      match htmlWriteErr with
      | some e =>
        { fsOps := side.1 ++ [.mkdirp (pathDirname sourceFullPath), .write sourceFullPath false],
          logs := side.2, outcome := .rejected e }
      | none =>
        { fsOps := side.1 ++ [.mkdirp (pathDirname sourceFullPath), .write sourceFullPath true],
          logs := side.2,
          outcome := .fulfilled (.obj { sourceName := sourceName, sourcePath := sourceFullPath }) }

/-- The settlement state of a promise or deferred. -/
inductive PState (α ε : Type)
  | pending
  | fulfilled (v : α)
  | rejected (e : ε)
deriving DecidableEq, Repr

/-- A call to a resolver: fulfill with a value or reject with an error. -/
inductive SettleOp (α ε : Type)
  | fulfill (v : α)
  | reject (e : ε)
deriving DecidableEq, Repr

/-- Semantics of a native `Promise` executor's resolve/reject: the first
call settles a pending promise, every call on a settled promise is a
no-op. -/
def promiseStep {α ε : Type} : PState α ε → SettleOp α ε → PState α ε
  | .pending, .fulfill v => .fulfilled v
  | .pending, .reject e => .rejected e
  | s, _ => s

/-- Modelled from the spec: the driver-provided deferred primitive
`wd.promise.defer()` is external to this repository; per the Awaitable
Bridge contract the host deferred settles once and ignores later
settlement attempts. -/
def wdDeferStep {α ε : Type} : PState α ε → SettleOp α ε → PState α ε
  | .pending, .fulfill v => .fulfilled v
  | .pending, .reject e => .rejected e
  | s, _ => s

/-- The state `p` (src/index.js lines 21-35) can reach: the native promise
it may have built, and the wd deferred it always builds. -/
structure PEnvState (α ε : Type) where
  nativeState : PState α ε
  wdState : PState α ε
deriving DecidableEq, Repr

/-- Both underlying primitives start pending. -/
def pInit {α ε : Type} : PEnvState α ε := ⟨.pending, .pending⟩

/-- One call to the `fulfill`/`reject` returned by `p`.  When
`global.Promise` exists the Promise executor has run synchronously and
reassigned the local `fulfill`/`reject` to the native resolvers before the
object literal is built, so the returned functions drive the native
promise; otherwise they forward to the wd deferred. -/
def pApply {α ε : Type} (hasNativePromise : Bool) (s : PEnvState α ε)
    (op : SettleOp α ε) : PEnvState α ε :=
  if hasNativePromise then { s with nativeState := promiseStep s.nativeState op }
  else { s with wdState := wdDeferStep s.wdState op }

/-- The settlement state of the promise object `p` returned: the native
promise when one exists, else the wd deferred's promise. -/
def pPromiseState {α ε : Type} (hasNativePromise : Bool) (s : PEnvState α ε) : PState α ε :=
  if hasNativePromise then s.nativeState else s.wdState

/-- The settled state a single resolver call asks for. -/
def settleOutcome {α ε : Type} : SettleOp α ε → PState α ε
  | .fulfill v => .fulfilled v
  | .reject e => .rejected e

/-- A sequence of resolver calls, applied in order. -/
def pApplyAll {α ε : Type} (hasNativePromise : Bool) (s : PEnvState α ε)
    (ops : List (SettleOp α ε)) : PEnvState α ε :=
  ops.foldl (pApply hasNativePromise) s

/-- An effect of one invocation of the uncaught-exception listener
(src/index.js lines 343-373): re-emitting the exception on the flow, a
`source` capture, or a `snap` capture with the given filename. -/
inductive HandlerEffect
  | emit
  | sourceCapture (filename : String)
  | snapCapture (filename : String)
deriving DecidableEq, Repr

/-- The world one listener invocation observes: the settled outcome of
`driver.getSession()` (`.ok true` = a session object, `.ok false` = a null
session), whether the `source` auto-capture option is set, the current
test title, the timestamp-based default filename, and the settled outcome
of the inner `snap` call. -/
structure HandlerCtx where
  sessionResult : Except JsError Bool
  sourceEnabled : Bool
  testTitle : Option String
  defaultFilename : String
  snapOutcome : SnapOutcome

/-- The filename the listener uses: the slugged test title when the title
is truthy, else the timestamp default. -/
def handlerFilename (ctx : HandlerCtx) : String :=
  match ctx.testTitle with
  | some t => if !t.isEmpty then titleSlug t else ctx.defaultFilename
  | none => ctx.defaultFilename

/-- One invocation of the uncaught-exception listener, src/index.js lines
343-373, as (effects issued in order, marker flag afterwards).  `marked`
is the exception's `_nemoScreenshotHandled` flag on entry.  The listener
first re-emits if the flag is set (the `if` body has no `return`, so
execution continues either way), then sets the flag and queries the
session: with a session it computes the filename, optionally captures
`source`, captures `snap`, and re-emits after a fulfilled snap; a null
session throws the exception into the attached `catch`, which re-emits; a
failed session query is caught the same way and re-emits. -/
def exceptionListener (ctx : HandlerCtx) (marked : Bool) : List HandlerEffect × Bool :=
  let pre : List HandlerEffect := if marked then [.emit] else []
  match ctx.sessionResult with
  | .ok true =>
    let fn := handlerFilename ctx
    let srcEff : List HandlerEffect := if ctx.sourceEnabled then [.sourceCapture fn] else []
    let post : List HandlerEffect :=
      match ctx.snapOutcome with
      | .fulfilled _ => [.emit]
      | .rejected _ => []
    (pre ++ srcEff ++ [.snapCapture fn] ++ post, true)
  | .ok false => (pre ++ [.emit], true)
  | .error _ => (pre ++ [.emit], true)

/-! ## Helper lemmas -/

theorem snapImageObj_imageName (cfg : PluginConfig) (n fp : String) :
    (snapImageObj cfg n fp).imageName = n := by
  unfold snapImageObj
  split
  · split <;> rfl
  · rfl

theorem snapImageObj_imagePath (cfg : PluginConfig) (n fp : String) :
    (snapImageObj cfg n fp).imagePath = fp := by
  unfold snapImageObj
  split
  · split <;> rfl
  · rfl

/-! ## Claim theorems -/

/-- Claim C4: the slugging function `titleSlug` produces a string of at
most 251 characters consisting only of word characters (every non-word
character of the trimmed title having been replaced by an underscore), and
on the spec's example "My Test: Case #1" it yields "My_Test__Case__1". -/
theorem titleSlug_slugging :
    (∀ t : String, (titleSlug t).length ≤ 251) ∧
    (∀ t : String, ∀ c ∈ (titleSlug t).data, jsIsWordChar c = true) ∧
    titleSlug "My Test: Case #1" = "My_Test__Case__1" := by
  refine ⟨?_, ?_, by decide⟩
  · intro t
    unfold titleSlug
    split
    · simp
    · show ((jsReplaceNonWord (jsTrim t)).data.take 251).length ≤ 251
      simp
  · intro t c hc
    unfold titleSlug at hc
    split at hc
    · simp at hc
    · have hc2 : c ∈ (jsTrim t).data.map
          (fun c => if jsIsWordChar c then c else '_') := by
        have hsub := List.take_subset 251 ((jsTrim t).data.map
          (fun c => if jsIsWordChar c then c else '_'))
        exact hsub hc
      rcases List.mem_map.mp hc2 with ⟨c0, _, rfl⟩
      by_cases h0 : jsIsWordChar c0
      · simp [h0]
      · simp only [h0, if_false, Bool.false_eq_true]
        decide

/-- Claim C5: `formatJenkinsImageUrls` with workspace `/w`, base path
`/w/report`, image `x.png`, job `myjob`, Jenkins URL `http://ci/` and no
build URL yields exactly the workspace image URL and no archived URL; and
whenever `WORKSPACE` is unset it returns `none`, whatever the other
variables and arguments are. -/
theorem formatJenkinsImageUrls_spec :
    formatJenkinsImageUrls
        { jenkinsUrl := some "http://ci/", buildUrl := none,
          jobName := some "myjob", workspace := some "/w" } "/w/report" "x.png"
      = some { imageUrl := some "http://ci/job/myjob/ws/report/x.png",
               archivedImageUrl := none } ∧
    (∀ (ju bu jo : Option String) (ssp im : String),
      formatJenkinsImageUrls
        { jenkinsUrl := ju, buildUrl := bu, jobName := jo, workspace := none } ssp im
        = none) := by
  exact ⟨by decide, fun ju bu jo ssp im => rfl⟩

/-- Claim C2: `snap` with no live session performs no filesystem
operation, leaves no file behind, and fulfills its promise with the no-op
sentinel `true`, for every filename, write outcome and configuration. -/
theorem snap_no_session_noop :
    ∀ (cfg : PluginConfig) (sc : Except JsError String)
      (writeErr : Option JsError) (f : String),
      snap cfg { hasSession := false, screenshot := sc } writeErr f =
        { fsOps := [], files := [], outcome := .fulfilled .sentinelTrue } := by
  intro cfg sc writeErr f
  rfl

/-- Claim C7: errors from screenshot retrieval and from the file write
reject the promise returned by `snap` with exactly that error value,
unwrapped. -/
theorem snap_error_passthrough :
    (∀ (cfg : PluginConfig) (e : JsError) (w : Option JsError) (f : String),
      (snap cfg { hasSession := true, screenshot := .error e } w f).outcome
        = .rejected e) ∧
    (∀ (cfg : PluginConfig) (img : String) (e : JsError) (f : String),
      (snap cfg { hasSession := true, screenshot := .ok img } (some e) f).outcome
        = .rejected e) := by
  exact ⟨fun _ _ _ _ => rfl, fun _ _ _ _ => rfl⟩

/-- Claim C3: `snap` with an active session, a successful screenshot and a
successful write fulfills with a capture result whose image name is
`f + ".png"`, whose image path lies under the resolved base directory, and
the written file exists at that path afterwards. -/
theorem snap_active_session_success :
    ∀ (cfg : PluginConfig) (img f : String),
      ∃ r : CaptureResult,
        (snap cfg { hasSession := true, screenshot := .ok img } none f).outcome
          = .fulfilled (.obj r) ∧
        r.imageName = f ++ ".png" ∧
        (∃ rest, r.imagePath = pathResolve cfg.cwd cfg.screenShotPath ++ "/" ++ rest) ∧
        (r.imagePath, img) ∈
          (snap cfg { hasSession := true, screenshot := .ok img } none f).files := by
  intro cfg img f
  refine ⟨snapImageObj cfg (f ++ ".png")
      (pathJoin (pathResolve cfg.cwd cfg.screenShotPath) (f ++ ".png")),
    rfl, snapImageObj_imageName cfg _ _, ⟨f ++ ".png", snapImageObj_imagePath cfg _ _⟩, ?_⟩
  show (_, img) ∈ [(pathJoin (pathResolve cfg.cwd cfg.screenShotPath) (f ++ ".png"), img)]
  rw [snapImageObj_imagePath]
  exact List.mem_singleton.mpr rfl

/-- Claim C6: `done` invokes its completion callback exactly once: with
the (possibly annotated) caller error when `snap` fulfills, and with
snap's own rejection value when `snap` rejects. -/
theorem done_invokes_callback_once :
    ∀ (cfg : PluginConfig) (drv : Driver) (w : Option JsError) (f : String)
      (err : Option JsError),
      (done cfg drv w f err).callbackCalls.length = 1 ∧
      ((∃ v, (snap cfg drv w f).outcome = .fulfilled v ∧
          (done cfg drv w f err).callbackCalls = [appendImageUrlToStackTrace v err]) ∨
       (∃ e, (snap cfg drv w f).outcome = .rejected e ∧
          (done cfg drv w f err).callbackCalls = [some e])) := by
  intro cfg drv w f err
  rcases h : (snap cfg drv w f).outcome with v | e
  · exact ⟨by simp [done, h], .inl ⟨v, rfl, by simp [done, h]⟩⟩
  · exact ⟨by simp [done, h], .inr ⟨e, rfl, by simp [done, h]⟩⟩

/-- Claim C10: with a falsy error argument the annotation step is skipped
entirely (`appendImageUrlToStackTrace` leaves `none` unchanged, so no
property access on a missing error can crash), and a successful `snap` —
whether a real capture or the no-session sentinel — still makes `done`
invoke its callback exactly once with that falsy value. -/
theorem done_falsy_error_safe :
    (∀ v : SnapValue, appendImageUrlToStackTrace v none = none) ∧
    (∀ (cfg : PluginConfig) (img f : String),
      (done cfg { hasSession := true, screenshot := .ok img } none f none).callbackCalls
        = [none]) ∧
    (∀ (cfg : PluginConfig) (sc : Except JsError String) (w : Option JsError) (f : String),
      (done cfg { hasSession := false, screenshot := sc } w f none).callbackCalls
        = [none]) := by
  exact ⟨fun v => rfl, fun cfg img f => rfl, fun cfg sc w f => rfl⟩

/-- The concrete configuration used for the `source` side-channel
counterexample: an absolute base directory and no Jenkins environment. -/
def cfgPlain : PluginConfig :=
  { cwd := "/cwd", screenShotPath := "/base",
    env := { jenkinsUrl := none, buildUrl := none, jobName := none, workspace := none } }

/-- A concrete script-execution failure. -/
def scriptErr : JsError :=
  { name := "Error", message := "script boom", stack := "Error: script boom" }

/-- Claim C8 counterexample: when `executeScript` fails, `source` logs
nothing at all — the failure is dropped, not logged, because no rejection
callback is attached to the side channel — even though the main path still
fulfills normally.  This refutes the claim that every side-channel failure
is logged. -/
theorem source_script_failure_not_logged :
    (source cfgPlain
        { hasSession := true, script := .error scriptErr, pageSource := .ok "<html></html>" }
        none none "f").logs = [] ∧
    (source cfgPlain
        { hasSession := true, script := .error scriptErr, pageSource := .ok "<html></html>" }
        none none "f").outcome
      = .fulfilled (.obj { sourceName := "f.html", sourcePath := "/base/f.html" }) := by
  exact ⟨rfl, by decide⟩

/-- Claim C8 (amended): failures of the DOM-inspection side channel never
affect the promise returned by `source` — its settled state depends only
on the page-source retrieval and the `.html` write — and a failure writing
the `.txt` file is logged via `console.error`; a script-execution failure,
however, is silently dropped. -/
theorem source_side_channel_isolated :
    (∀ (cfg : PluginConfig) (s1 s2 : Except JsError String) (tw1 tw2 : Option JsError)
       (ps : Except JsError String) (hw : Option JsError) (f : String),
      (source cfg { hasSession := true, script := s1, pageSource := ps } tw1 hw f).outcome
        = (source cfg { hasSession := true, script := s2, pageSource := ps } tw2 hw f).outcome) ∧
    (∀ (cfg : PluginConfig) (bin : String) (e : JsError) (ps : Except JsError String)
       (hw : Option JsError) (f : String),
      LogEntry.errorLog e ∈
        (source cfg { hasSession := true, script := .ok bin, pageSource := ps }
          (some e) hw f).logs) := by
  constructor
  · intro cfg s1 s2 tw1 tw2 ps hw f
    rcases ps with pe | src <;> rcases hw with _ | he <;> rfl
  · intro cfg bin e ps hw f
    rcases ps with pe | src
    · simp [source]
    · rcases hw with _ | he <;> simp [source]

/-- A settled state is absorbing for the native promise semantics. -/
theorem promiseStep_settled {α ε : Type} (op0 op : SettleOp α ε) :
    promiseStep (settleOutcome op0) op = settleOutcome op0 := by
  cases op0 <;> rfl

/-- A settled state is absorbing for the wd deferred semantics. -/
theorem wdDeferStep_settled {α ε : Type} (op0 op : SettleOp α ε) :
    wdDeferStep (settleOutcome op0) op = settleOutcome op0 := by
  cases op0 <;> rfl

/-- Once the promise returned by `p` is settled, a further resolver call
leaves it unchanged, in either branch of the shim. -/
theorem pApply_keeps_settled {α ε : Type} (b : Bool) (op0 : SettleOp α ε)
    (s : PEnvState α ε) (h : pPromiseState b s = settleOutcome op0) (op : SettleOp α ε) :
    pPromiseState b (pApply b s op) = settleOutcome op0 := by
  cases b
  · simp only [pPromiseState, pApply, Bool.false_eq_true, if_false] at h ⊢
    rw [h]
    exact wdDeferStep_settled op0 op
  · simp only [pPromiseState, pApply, if_true] at h ⊢
    rw [h]
    exact promiseStep_settled op0 op

/-- Claim C9: the bridge `p` yields a resolver/promise pair where the
first `fulfill`/`reject` call settles the promise with that outcome, and
every subsequent sequence of resolver calls leaves the settled state
unchanged — both when a native Promise primitive exists and when only the
driver's deferred primitive does. -/
theorem p_settles_exactly_once :
    ∀ (α ε : Type) (b : Bool) (op : SettleOp α ε) (ops : List (SettleOp α ε)),
      pPromiseState b (pApply b pInit op) = settleOutcome op ∧
      pPromiseState b (pApplyAll b (pApply b pInit op) ops) = settleOutcome op := by
  intro α ε b op ops
  have h1 : pPromiseState b (pApply b pInit op) = settleOutcome op := by
    cases b <;> cases op <;> rfl
  refine ⟨h1, ?_⟩
  have hall : ∀ (l : List (SettleOp α ε)) (s : PEnvState α ε),
      pPromiseState b s = settleOutcome op →
      pPromiseState b (pApplyAll b s l) = settleOutcome op := by
    intro l
    induction l with
    | nil => intro s hs; exact hs
    | cons x xs ih => intro s hs; exact ih _ (pApply_keeps_settled b op s hs x)
  exact hall ops _ h1

/-- Claim C1 at the failing input: an exception whose marker flag is
already set is re-emitted immediately (the first effect is `emit`), but
because the guard lacks a `return`, the listener still proceeds to issue
another `snap` capture on the same pass — contradicting the claim that no
second capture is issued. -/
theorem uncaught_exception_double_capture :
    ((exceptionListener
        { sessionResult := .ok true, sourceEnabled := false, testTitle := none,
          defaultFilename := "ScreenShot_onException-7-1700000000000",
          snapOutcome := .fulfilled .sentinelTrue } true).1.head? = some .emit) ∧
    HandlerEffect.snapCapture "ScreenShot_onException-7-1700000000000" ∈
      (exceptionListener
        { sessionResult := .ok true, sourceEnabled := false, testTitle := none,
          defaultFilename := "ScreenShot_onException-7-1700000000000",
          snapOutcome := .fulfilled .sentinelTrue } true).1 := by
  exact ⟨rfl, by decide⟩

end Nemo
